import Mathlib

/-!
Shallow embedding of the ledger front end of the `umkm` bookkeeping
application (Svelte/TypeScript sources: `QuickEntry.svelte`,
`Accounts.svelte`, the `stores` module and the `Dropdown` component).

JavaScript numbers are modelled by the inductive type `JSNum`
(NaN, the two infinities, and finite values as rationals); the external
builtins `parseFloat` and `Intl.NumberFormat` are abstracted as function
parameters, since they are not code of this repository.  Every other
definition is a direct translation of the corresponding source function.
-/

/-- Model of a JavaScript number: NaN, +Infinity, -Infinity, or a finite
value (represented exactly as a rational). -/
inductive JSNum where
  | nan : JSNum
  | posInf : JSNum
  | negInf : JSNum
  | fin : ℚ → JSNum
deriving DecidableEq, Repr

namespace JSNum

/-- JavaScript truthiness of a number: `NaN` and `0` are falsy, everything
else (including the infinities) is truthy.  Models the guards
`if (!parsedAmount)`, `if (!fromAccountId)` etc. -/
def truthy : JSNum → Bool
  | nan => false
  | posInf => true
  | negInf => true
  | fin q => decide (q ≠ 0)

/-- `Math.abs`. -/
def abs : JSNum → JSNum
  | nan => nan
  | posInf => posInf
  | negInf => posInf
  | fin q => fin |q|

/-- JavaScript unary minus. -/
def neg : JSNum → JSNum
  | nan => nan
  | posInf => negInf
  | negInf => posInf
  | fin q => fin (-q)

/-- `Number.isNaN`. -/
def isNaN : JSNum → Bool
  | nan => true
  | _ => false

/-- Strict positivity in the JavaScript ordering (`x > 0`); `Infinity > 0`
holds, `NaN > 0` does not. -/
def isPos : JSNum → Bool
  | nan => false
  | posInf => true
  | negInf => false
  | fin q => decide (0 < q)

/-- JavaScript multiplication (`x * y`); `NaN` propagates and
`±Infinity * 0` is `NaN`. -/
def mul : JSNum → JSNum → JSNum
  | nan, _ => nan
  | _, nan => nan
  | posInf, posInf => posInf
  | posInf, negInf => negInf
  | negInf, posInf => negInf
  | negInf, negInf => posInf
  | posInf, fin q => if q = 0 then nan else if 0 < q then posInf else negInf
  | fin q, posInf => if q = 0 then nan else if 0 < q then posInf else negInf
  | negInf, fin q => if q = 0 then nan else if 0 < q then negInf else posInf
  | fin q, negInf => if q = 0 then nan else if 0 < q then negInf else posInf
  | fin q, fin r => fin (q * r)

/-- `Math.round`: round to the nearest integer, halves toward `+Infinity`
(so `Math.round x = ⌊x + 1/2⌋` on finite values). -/
def round : JSNum → JSNum
  | nan => nan
  | posInf => posInf
  | negInf => negInf
  | fin q => fin ((⌊q + 1/2⌋ : ℤ) : ℚ)

end JSNum

/-- The `Account` record received by `QuickEntry.svelte` (interface
`Account`: id, name, account_type, opening_balance, container_id,
created_at). -/
structure Account where
  id : Int
  name : String
  account_type : String
  opening_balance : Int
  container_id : Int
  created_at : String
deriving DecidableEq, Repr

/-- The `Category` record of `QuickEntry.svelte` (interface `Category`:
name, category_type, is_default). -/
structure Category where
  name : String
  category_type : String
  is_default : Bool
deriving DecidableEq, Repr

/-- Transaction type selector of the quick-entry form
(`'expense' | 'income' | 'transfer'`). -/
inductive TransactionType where
  | expense : TransactionType
  | income : TransactionType
  | transfer : TransactionType
deriving DecidableEq, Repr

/-- The mutable form state of `QuickEntry.svelte` that `handleSubmit`
reads and writes: `amount`, `description`, `category`, `transactionType`,
`accountId`, `fromAccountId`, `toAccountId`. -/
structure QuickEntryState where
  amount : String
  description : String
  category : String
  transactionType : TransactionType
  accountId : Option Int
  fromAccountId : Option Int
  toAccountId : Option Int
deriving DecidableEq, Repr

/-- Payload of the `dispatch('transfer', {...})` event. -/
structure TransferPayload where
  amount : JSNum
  description : Option String
  fromAccountId : Option Int
  toAccountId : Option Int
deriving DecidableEq, Repr

/-- Payload of the `dispatch('add', {...})` event. -/
structure AddPayload where
  amount : JSNum
  description : Option String
  category : Option String
  accountId : Option Int
deriving DecidableEq, Repr

/-- An event dispatched by `handleSubmit`: either an `'add'` or a
`'transfer'`. -/
inductive DispatchEvent where
  | add : AddPayload → DispatchEvent
  | transfer : TransferPayload → DispatchEvent
deriving DecidableEq, Repr

/-- JavaScript truthiness of a `number | null` variable (`null` and `0`
are falsy). -/
def optTruthy : Option Int → Bool
  | none => false
  | some n => decide (n ≠ 0)

/-- Model of the JavaScript builtin `String.prototype.trim`: drop leading
and trailing whitespace. -/
def jsTrim (s : String) : String :=
  String.mk (((s.data.dropWhile Char.isWhitespace).reverse.dropWhile
    Char.isWhitespace).reverse)

/-- The expression `str.trim() || null`. -/
def trimOrNull (str : String) : Option String :=
  if jsTrim str = "" then none else some (jsTrim str)

/-- The expression
`selectedAccount?.account_type === 'asset' || selectedAccount?.account_type === 'contra_asset'`
where `selectedAccount = accounts.find(acc => acc.id === accountId)`
(optional chaining on a missing account yields `undefined`, which compares
unequal to both strings). -/
def isAssetFor (accounts : List Account) (accountId : Option Int) : Bool :=
  match accounts.find? (fun acc => accountId == some acc.id) with
  | some acc => acc.account_type == "asset" || acc.account_type == "contra_asset"
  | none => false

/-- `handleSubmit` of `QuickEntry.svelte`.  `pf` stands for the external
builtin `parseFloat` applied to the bound `amount` string.  The result is
the new form state paired with the dispatched event, if any (early
returns dispatch nothing and leave the state unchanged). -/
def handleSubmit (pf : String → JSNum) (accounts : List Account)
    (s : QuickEntryState) : QuickEntryState × Option DispatchEvent :=
  let parsedAmount := pf s.amount
  if !parsedAmount.truthy then
    (s, none)
  else if s.transactionType = TransactionType.transfer then
    if !optTruthy s.fromAccountId || !optTruthy s.toAccountId
        || s.fromAccountId == s.toAccountId then
      (s, none)
    else
      ({ s with
          amount := "",
          description := "",
          fromAccountId := none,
          toAccountId := none },
        some (DispatchEvent.transfer
          { amount := parsedAmount.abs,
            description := trimOrNull s.description,
            fromAccountId := s.fromAccountId,
            toAccountId := s.toAccountId }))
  else if s.accountId == none || s.category == "" then
    (s, none)
  else
    let isAsset := isAssetFor accounts s.accountId
    let base := parsedAmount.abs
    let signedAmount :=
      if s.transactionType = TransactionType.expense then base.neg else base
    let finalAmount := if isAsset then signedAmount else signedAmount.neg
    ({ s with
        amount := "",
        description := "",
        category := "",
        transactionType := TransactionType.expense,
        accountId := none },
      some (DispatchEvent.add
        { amount := finalAmount,
          description := trimOrNull s.description,
          category := if s.category == "" then none else some s.category,
          accountId := s.accountId }))

/-- The hardcoded fallback category list of `loadCategories` in
`QuickEntry.svelte` (the `catch` branch). -/
def defaultCategories : List Category :=
  [ { name := "Food & Dining", category_type := "expense", is_default := true },
    { name := "Transportation", category_type := "expense", is_default := true },
    { name := "Shopping", category_type := "expense", is_default := true },
    { name := "Entertainment", category_type := "expense", is_default := true },
    { name := "Bills & Utilities", category_type := "expense", is_default := true },
    { name := "Healthcare", category_type := "expense", is_default := true },
    { name := "Income", category_type := "income", is_default := true },
    { name := "Other", category_type := "expense", is_default := true } ]

/-- `loadCategories` of `QuickEntry.svelte`: the resulting `categories`
list, given the outcome of the `invoke('get_categories')` backing call
(`Except.error` models the rejected promise caught by `catch`). -/
def loadCategories (result : Except Unit (List Category)) : List Category :=
  match result with
  | Except.ok cs => cs
  | Except.error _ => defaultCategories

/-- The `CurrencySettings` record of the `stores` module. -/
structure CurrencySettings where
  code : String
  symbol : String
  position : String
  locale : String
deriving DecidableEq, Repr

/-- `formatCurrency` of the `stores` module.  `fmtNum` stands for the
external `Intl.NumberFormat(...).format` builtin (locale-dependent
rendering of a nonnegative decimal with two fraction digits). -/
def formatCurrency (fmtNum : ℚ → String) (cents : Int)
    (settings : CurrencySettings) : String :=
  let dollars : ℚ := |(cents : ℚ)| / 100
  let formatted := fmtNum dollars
  if settings.position = "before" then
    settings.symbol ++ formatted
  else
    formatted ++ " " ++ settings.symbol

/-- The form state of `Accounts.svelte` read by `handleAddAccount`:
`containerId`, `name`, `accountType`, `openingBalance`. -/
structure AccountsState where
  containerId : Option Int
  name : String
  accountType : String
  openingBalance : String
deriving DecidableEq, Repr

/-- Arguments of the `invoke('add_account', {...})` backing call. -/
structure AddAccountCall where
  containerId : Int
  name : String
  accountType : String
  openingBalance : JSNum
deriving DecidableEq, Repr

/-- `handleAddAccount` of `Accounts.svelte`: the `add_account` invocation
it performs, if any.  `pf` stands for `parseFloat` applied to the bound
`openingBalance` string; the guards are
`if (!containerId || !name.trim() || !accountType) return;` and
`if (Number.isNaN(parsed)) return;`, and the transmitted opening balance
is `Math.round(parsed * 100)`. -/
def handleAddAccount (pf : String → JSNum) (s : AccountsState) :
    Option AddAccountCall :=
  if !optTruthy s.containerId || jsTrim s.name == "" || s.accountType == "" then
    none
  else
    let parsed := pf s.openingBalance
    if parsed.isNaN then
      none
    else
      some { containerId := s.containerId.getD 0,
             name := jsTrim s.name,
             accountType := s.accountType,
             openingBalance := (parsed.mul (JSNum.fin 100)).round }

/-- Pointwise relation: two account lists that agree on every field except
possibly `account_type`. -/
def differOnlyInType : List Account → List Account → Bool
  | [], [] => true
  | a :: l1, b :: l2 =>
      a.id == b.id && a.name == b.name && a.opening_balance == b.opening_balance
        && a.container_id == b.container_id && a.created_at == b.created_at
        && differOnlyInType l1 l2
  | _, _ => false

/-! Concrete fixtures used by counterexamples and witnesses. -/

/-- An asset account, id 1. -/
def cashAsset : Account :=
  { id := 1, name := "Cash", account_type := "asset", opening_balance := 0,
    container_id := 1, created_at := "" }

/-- The same account with classification `contra_asset`. -/
def cashContra : Account :=
  { id := 1, name := "Cash", account_type := "contra_asset", opening_balance := 0,
    container_id := 1, created_at := "" }

/-- A liability account, id 2. -/
def loanLiability : Account :=
  { id := 2, name := "Loan", account_type := "liability", opening_balance := 0,
    container_id := 1, created_at := "" }

/-- The same account with classification `equity`. -/
def loanEquity : Account :=
  { id := 2, name := "Loan", account_type := "equity", opening_balance := 0,
    container_id := 1, created_at := "" }

/-- A second asset account, id 2. -/
def savingsAsset : Account :=
  { id := 2, name := "Savings", account_type := "asset", opening_balance := 0,
    container_id := 1, created_at := "" }

/-- `parseFloat` behaviour on the fixture input `"50"`. -/
def pfFifty : String → JSNum := fun _ => JSNum.fin 50

/-- `parseFloat` behaviour on a non-numeric fixture input. -/
def pfNaN : String → JSNum := fun _ => JSNum.nan

/-- `parseFloat` behaviour on the fixture input `"1e400"`, whose value
overflows to `+Infinity`. -/
def pfInf : String → JSNum := fun _ => JSNum.posInf

/-- `parseFloat` behaviour on the fixture input `"-2.5"`. -/
def pfNegQ : String → JSNum := fun _ => JSNum.fin (-(5 / 2 : ℚ))

/-- Quick-entry form state: amount `"50"`, expense, account 1,
category `Food & Dining`. -/
def entryExpenseAsset : QuickEntryState :=
  { amount := "50", description := "", category := "Food & Dining",
    transactionType := TransactionType.expense, accountId := some 1,
    fromAccountId := none, toAccountId := none }

/-- Quick-entry form state: amount `"50"`, expense, account 2. -/
def entryExpenseLiab : QuickEntryState :=
  { amount := "50", description := "", category := "Food & Dining",
    transactionType := TransactionType.expense, accountId := some 2,
    fromAccountId := none, toAccountId := none }

/-- Quick-entry form state: amount `"1e400"`, expense, account 1. -/
def entryOverflow : QuickEntryState :=
  { amount := "1e400", description := "", category := "Food & Dining",
    transactionType := TransactionType.expense, accountId := some 1,
    fromAccountId := none, toAccountId := none }

/-- Quick-entry form state: a transfer of `"50"` from account 1 to
account 2. -/
def entryTransfer : QuickEntryState :=
  { amount := "50", description := "", category := "",
    transactionType := TransactionType.transfer, accountId := none,
    fromAccountId := some 1, toAccountId := some 2 }

/-- Accounts form state: container 1, name `"Kas"`, type `asset`,
opening balance `"-2.5"`. -/
def accFormNeg : AccountsState :=
  { containerId := some 1, name := "Kas", accountType := "asset",
    openingBalance := "-2.5" }

/-- The `savingsAsset` account reclassified as a liability. -/
def savingsLiab : Account :=
  { id := 2, name := "Savings", account_type := "liability", opening_balance := 0,
    container_id := 1, created_at := "" }

/-- Quick-entry form state: a transfer of `"50"` from account 1 to
account 1 (same source and destination). -/
def entryTransferSame : QuickEntryState :=
  { amount := "50", description := "", category := "",
    transactionType := TransactionType.transfer, accountId := none,
    fromAccountId := some 1, toAccountId := some 1 }

/-- Quick-entry form state: expense on account 1 with no category
selected. -/
def entryNoCat : QuickEntryState :=
  { amount := "50", description := "", category := "",
    transactionType := TransactionType.expense, accountId := some 1,
    fromAccountId := none, toAccountId := none }

/-! Helper lemmas. -/

/-- `handleSubmit` reads the account list only through
`isAssetFor accounts s.accountId`. -/
theorem handleSubmit_congr (pf : String → JSNum) (s : QuickEntryState)
    (l1 l2 : List Account)
    (h : isAssetFor l1 s.accountId = isAssetFor l2 s.accountId) :
    handleSubmit pf l1 s = handleSubmit pf l2 s := by
  unfold handleSubmit
  rw [h]

/-- In the transfer branch the account list is not consulted at all. -/
theorem handleSubmit_transfer_ignores_accounts (pf : String → JSNum)
    (s : QuickEntryState) (l1 l2 : List Account)
    (h : s.transactionType = TransactionType.transfer) :
    handleSubmit pf l1 s = handleSubmit pf l2 s := by
  unfold handleSubmit
  rw [h]
  simp

/-- C8: when the `get_categories` backing call fails, `loadCategories`
falls back to exactly the eight documented built-in defaults, in order,
with `Income` typed `income`, every other default typed `expense`, and
every default flagged `is_default`. -/
theorem claim_C8_default_categories :
    loadCategories (Except.error ()) =
      [ { name := "Food & Dining", category_type := "expense", is_default := true },
        { name := "Transportation", category_type := "expense", is_default := true },
        { name := "Shopping", category_type := "expense", is_default := true },
        { name := "Entertainment", category_type := "expense", is_default := true },
        { name := "Bills & Utilities", category_type := "expense", is_default := true },
        { name := "Healthcare", category_type := "expense", is_default := true },
        { name := "Income", category_type := "income", is_default := true },
        { name := "Other", category_type := "expense", is_default := true } ] ∧
    (loadCategories (Except.error ())).all
      (fun c => c.is_default &&
        (c.category_type == if c.name == "Income" then "income" else "expense"))
      = true := by
  constructor
  · rfl
  · decide

/-- C10: `formatCurrency` discards the sign of its `cents` argument: for
every formatter, every integer cents value and every settings record, the
output at `c` equals the output at `-c`, and both equal the output at
`|c|` (so the formatter only ever receives the nonnegative magnitude). -/
theorem claim_C10_formatCurrency_sign_blind (fmtNum : ℚ → String) (c : Int)
    (settings : CurrencySettings) :
    formatCurrency fmtNum c settings = formatCurrency fmtNum (-c) settings ∧
    formatCurrency fmtNum c settings
      = formatCurrency fmtNum (Int.natAbs c : Int) settings := by
  unfold formatCurrency
  constructor
  · push_cast
    rw [abs_neg]
  · push_cast
    rw [abs_abs]

/-- Core dispatch lemma for the non-transfer branch of `handleSubmit`:
with a truthy finite parsed amount, a selected account id and a nonempty
category, the dispatched `'add'` payload carries
`fin (±|q|)` as dictated by `isAssetFor`. -/
theorem handleSubmit_dispatch_add (pf : String → JSNum)
    (accounts : List Account) (s : QuickEntryState) (q : ℚ)
    (hkind : s.transactionType ≠ TransactionType.transfer)
    (hparse : pf s.amount = JSNum.fin q) (hq : q ≠ 0)
    (hacc : s.accountId ≠ none) (hcat : s.category ≠ "") :
    (handleSubmit pf accounts s).2 =
      some (DispatchEvent.add
        { amount := JSNum.fin
            (if isAssetFor accounts s.accountId
              then (if s.transactionType = TransactionType.expense then -|q| else |q|)
              else -(if s.transactionType = TransactionType.expense then -|q| else |q|)),
          description := trimOrNull s.description,
          category := some s.category,
          accountId := s.accountId }) := by
  have hacc' : (s.accountId == none) = false := by
    cases hA : s.accountId with
    | none => exact absurd hA hacc
    | some n => rfl
  have hcat' : (s.category == "") = false := by
    simpa using hcat
  by_cases hA : isAssetFor accounts s.accountId <;>
    by_cases hE : s.transactionType = TransactionType.expense <;>
      simp [handleSubmit, hparse, JSNum.truthy, hq, hkind, hacc', hcat',
        JSNum.abs, JSNum.neg, hA, hE]

/-- C1: for every submitted non-transfer entry with a finite non-zero
parsed amount, a selected account and a category, the dispatched amount
equals `signedAmount = (expense ? -|q| : |q|)` when the account's
classification is `asset` or `contra_asset`, and `-signedAmount` when it
is `liability`, `equity` (or any non-asset classification). -/
theorem claim_C1_sign_convention (pf : String → JSNum)
    (accounts : List Account) (s : QuickEntryState) (q : ℚ) (acc : Account)
    (hkind : s.transactionType ≠ TransactionType.transfer)
    (hparse : pf s.amount = JSNum.fin q) (hq : q ≠ 0)
    (hfind : accounts.find? (fun a => s.accountId == some a.id) = some acc)
    (hcat : s.category ≠ "") :
    (handleSubmit pf accounts s).2 =
      some (DispatchEvent.add
        { amount := JSNum.fin
            (if acc.account_type = "asset" ∨ acc.account_type = "contra_asset"
              then (if s.transactionType = TransactionType.expense then -|q| else |q|)
              else -(if s.transactionType = TransactionType.expense then -|q| else |q|)),
          description := trimOrNull s.description,
          category := some s.category,
          accountId := s.accountId }) := by
  have hacc : s.accountId ≠ none := by
    have hp := List.find?_some hfind
    intro hnone
    rw [hnone] at hp
    simp at hp
  have hiA : isAssetFor accounts s.accountId =
      (acc.account_type == "asset" || acc.account_type == "contra_asset") := by
    unfold isAssetFor
    rw [hfind]
  rw [handleSubmit_dispatch_add pf accounts s q hkind hparse hq hacc hcat, hiA]
  by_cases hA : acc.account_type = "asset" ∨ acc.account_type = "contra_asset" <;>
    simp [hA]

/-- C1 witness: amount `"50"`, expense, on the asset account `Cash`
dispatches `'add'` with amount `-50`. -/
theorem claim_C1_sign_convention_witness :
    (handleSubmit pfFifty [cashAsset] entryExpenseAsset).2 =
      some (DispatchEvent.add
        { amount := JSNum.fin (-50),
          description := none,
          category := some "Food & Dining",
          accountId := some 1 }) :=
  (claim_C1_sign_convention pfFifty [cashAsset] entryExpenseAsset 50 cashAsset
    (by decide) rfl (by norm_num) (by decide) (by decide)).trans (by decide)

/-- C2 counterexample: `handleSubmit` with entered amount `"50"`, kind
expense, on an asset account dispatches amount `-50`, not the minor-unit
value `-5000` the claim requires (the ×100 conversion is absent from
`handleSubmit`). -/
theorem claim_C2_counterexample :
    (handleSubmit pfFifty [cashAsset] entryExpenseAsset).2 =
      some (DispatchEvent.add
        { amount := JSNum.fin (-50),
          description := none,
          category := some "Food & Dining",
          accountId := some 1 }) ∧
    JSNum.fin (-50) ≠ JSNum.fin (-5000) := by
  constructor
  · decide
  · decide

/-- C2 (amended): the amount dispatched by `handleSubmit` is the entered
currency-unit magnitude itself with the §4.2 sign applied — not 100 times
it: the dispatched `'add'` payload carries `fin r` with `|r| = |q|`, where
`q` is the parsed entered amount. -/
theorem claim_C2_amended_unit_magnitude (pf : String → JSNum)
    (accounts : List Account) (s : QuickEntryState) (q : ℚ) (acc : Account)
    (hkind : s.transactionType ≠ TransactionType.transfer)
    (hparse : pf s.amount = JSNum.fin q) (hq : q ≠ 0)
    (hfind : accounts.find? (fun a => s.accountId == some a.id) = some acc)
    (hcat : s.category ≠ "") :
    ∃ r : ℚ,
      (handleSubmit pf accounts s).2 =
        some (DispatchEvent.add
          { amount := JSNum.fin r,
            description := trimOrNull s.description,
            category := some s.category,
            accountId := s.accountId }) ∧
      |r| = |q| := by
  have hacc : s.accountId ≠ none := by
    have hp := List.find?_some hfind
    intro hnone
    rw [hnone] at hp
    simp at hp
  refine ⟨if isAssetFor accounts s.accountId
      then (if s.transactionType = TransactionType.expense then -|q| else |q|)
      else -(if s.transactionType = TransactionType.expense then -|q| else |q|),
    handleSubmit_dispatch_add pf accounts s q hkind hparse hq hacc hcat, ?_⟩
  by_cases hA : isAssetFor accounts s.accountId <;>
    by_cases hE : s.transactionType = TransactionType.expense <;>
      simp [hA, hE, abs_abs]

/-- C2 (amended) witness: the concrete run of the counterexample,
recovered through the amended theorem (`r = -50`, `|r| = |50|`). -/
theorem claim_C2_amended_witness :
    ∃ r : ℚ,
      (handleSubmit pfFifty [cashAsset] entryExpenseAsset).2 =
        some (DispatchEvent.add
          { amount := JSNum.fin r,
            description := trimOrNull entryExpenseAsset.description,
            category := some "Food & Dining",
            accountId := some 1 }) ∧
      |r| = |(50 : ℚ)| :=
  claim_C2_amended_unit_magnitude pfFifty [cashAsset] entryExpenseAsset 50 cashAsset
    (by decide) rfl (by norm_num) (by decide) (by decide)

/-- C3: `handleSubmit` treats `contra_asset` exactly like `asset`, and
`equity` exactly like `liability`: if the account found for the selected
id has classification `t1` in one list and `t2` in the other, with
`(t1, t2)` one of those two pairs, the entire result (new state and
dispatched event) is identical. -/
theorem claim_C3_classification_equiv (pf : String → JSNum)
    (s : QuickEntryState) (l1 l2 : List Account) (t1 t2 : String)
    (hpair : (t1 = "asset" ∧ t2 = "contra_asset")
      ∨ (t1 = "liability" ∧ t2 = "equity"))
    (h1 : (l1.find? (fun acc => s.accountId == some acc.id)).map
      (fun acc => acc.account_type) = some t1)
    (h2 : (l2.find? (fun acc => s.accountId == some acc.id)).map
      (fun acc => acc.account_type) = some t2) :
    handleSubmit pf l1 s = handleSubmit pf l2 s := by
  apply handleSubmit_congr
  rcases Option.map_eq_some'.mp h1 with ⟨a1, hf1, ht1⟩
  rcases Option.map_eq_some'.mp h2 with ⟨a2, hf2, ht2⟩
  unfold isAssetFor
  rw [hf1, hf2]
  simp only [ht1, ht2]
  rcases hpair with ⟨e1, e2⟩ | ⟨e1, e2⟩ <;> rw [e1, e2] <;> rfl

/-- C3 witness: reclassifying `Cash` from `asset` to `contra_asset`
leaves the result of a concrete expense submission unchanged. -/
theorem claim_C3_classification_equiv_witness :
    handleSubmit pfFifty [cashAsset] entryExpenseAsset
      = handleSubmit pfFifty [cashContra] entryExpenseAsset :=
  claim_C3_classification_equiv pfFifty entryExpenseAsset
    [cashAsset] [cashContra] "asset" "contra_asset"
    (Or.inl ⟨rfl, rfl⟩) (by decide) (by decide)

/-- C4 counterexample: a non-finite parsed amount is NOT rejected by
`handleSubmit`.  With an input such as `"1e400"`, whose `parseFloat` value
overflows to `+Infinity`, the guard `if (!parsedAmount)` passes
(`Infinity` is truthy) and an `'add'` event carrying `-Infinity` is
dispatched, contradicting the claim that no event is dispatched. -/
theorem claim_C4_counterexample :
    pfInf entryOverflow.amount = JSNum.posInf ∧
    (handleSubmit pfInf [cashAsset] entryOverflow).2 =
      some (DispatchEvent.add
        { amount := JSNum.negInf,
          description := none,
          category := some "Food & Dining",
          accountId := some 1 }) := by
  constructor
  · rfl
  · decide

/-- C4 (amended): `handleSubmit` rejects exactly the falsy parsed amounts:
whenever the parsed amount is `0` or `NaN` it dispatches no event and
leaves every field of the form state unchanged (a parsed value of
`±Infinity`, by contrast, passes the guard). -/
theorem claim_C4_amended_falsy_rejected (pf : String → JSNum)
    (accounts : List Account) (s : QuickEntryState)
    (h : pf s.amount = JSNum.nan ∨ pf s.amount = JSNum.fin 0) :
    handleSubmit pf accounts s = (s, none) := by
  rcases h with h | h <;> simp [handleSubmit, h, JSNum.truthy]

/-- C4 (amended) witness: a non-numeric amount input leads to no dispatch
and an unchanged state. -/
theorem claim_C4_amended_falsy_rejected_witness :
    handleSubmit pfNaN [cashAsset] entryExpenseAsset
      = (entryExpenseAsset, none) :=
  claim_C4_amended_falsy_rejected pfNaN [cashAsset] entryExpenseAsset (Or.inl rfl)

/-- C5: a transfer whose source account equals its destination (or whose
source or destination is unset) is always rejected: no event is
dispatched and the form state is unchanged, regardless of the entered
magnitude. -/
theorem claim_C5_same_account_transfer (pf : String → JSNum)
    (accounts : List Account) (s : QuickEntryState)
    (hkind : s.transactionType = TransactionType.transfer)
    (h : s.fromAccountId = s.toAccountId ∨ s.fromAccountId = none
      ∨ s.toAccountId = none) :
    handleSubmit pf accounts s = (s, none) := by
  rcases h with h | h | h <;> simp [handleSubmit, hkind, h, optTruthy]

/-- C5 witness: a transfer of `"50"` from account 1 to account 1 is
rejected. -/
theorem claim_C5_same_account_transfer_witness :
    handleSubmit pfFifty [cashAsset, savingsAsset] entryTransferSame
      = (entryTransferSame, none) :=
  claim_C5_same_account_transfer pfFifty [cashAsset, savingsAsset]
    entryTransferSame rfl (Or.inl rfl)

/-- C6: a submitted transfer dispatches `|parsedAmount|` — strictly
positive in the JavaScript ordering — with no classification sign-flip,
and the result is identical for any two account lists that differ only in
their `account_type` fields (the transfer branch never consults the
classifications). -/
theorem claim_C6_transfer_no_flip (pf : String → JSNum)
    (s : QuickEntryState) (l1 l2 : List Account)
    (hkind : s.transactionType = TransactionType.transfer)
    (hfrom : optTruthy s.fromAccountId = true)
    (hto : optTruthy s.toAccountId = true)
    (hne : s.fromAccountId ≠ s.toAccountId)
    (htr : (pf s.amount).truthy = true)
    (_hdiff : differOnlyInType l1 l2 = true) :
    (handleSubmit pf l1 s).2 =
      some (DispatchEvent.transfer
        { amount := (pf s.amount).abs,
          description := trimOrNull s.description,
          fromAccountId := s.fromAccountId,
          toAccountId := s.toAccountId }) ∧
    ((pf s.amount).abs).isPos = true ∧
    handleSubmit pf l1 s = handleSubmit pf l2 s := by
  refine ⟨?_, ?_, handleSubmit_transfer_ignores_accounts pf s l1 l2 hkind⟩
  · have hne' : (s.fromAccountId == s.toAccountId) = false := by
      simpa using hne
    simp [handleSubmit, hkind, hfrom, hto, hne', htr]
  · cases hp : pf s.amount with
    | nan => rw [hp] at htr; simp [JSNum.truthy] at htr
    | posInf => rfl
    | negInf => rfl
    | fin q =>
        rw [hp] at htr
        simp only [JSNum.truthy, decide_eq_true_eq] at htr
        simp [JSNum.abs, JSNum.isPos, abs_pos, htr]

/-- C6 witness: a concrete transfer of `"50"` from account 1 to
account 2, with the second list reclassifying both accounts. -/
theorem claim_C6_transfer_no_flip_witness :
    (handleSubmit pfFifty [cashAsset, savingsAsset] entryTransfer).2 =
      some (DispatchEvent.transfer
        { amount := (pfFifty entryTransfer.amount).abs,
          description := trimOrNull entryTransfer.description,
          fromAccountId := entryTransfer.fromAccountId,
          toAccountId := entryTransfer.toAccountId }) ∧
    ((pfFifty entryTransfer.amount).abs).isPos = true ∧
    handleSubmit pfFifty [cashAsset, savingsAsset] entryTransfer
      = handleSubmit pfFifty [cashContra, savingsLiab] entryTransfer :=
  claim_C6_transfer_no_flip pfFifty entryTransfer
    [cashAsset, savingsAsset] [cashContra, savingsLiab]
    rfl (by decide) (by decide) (by decide) (by decide) (by decide)

/-- C7: a non-transfer submission with an empty category or no selected
account dispatches nothing and leaves the form state unchanged. -/
theorem claim_C7_category_mandatory (pf : String → JSNum)
    (accounts : List Account) (s : QuickEntryState)
    (hkind : s.transactionType = TransactionType.expense
      ∨ s.transactionType = TransactionType.income)
    (h : s.category = "" ∨ s.accountId = none) :
    handleSubmit pf accounts s = (s, none) := by
  have hnt : s.transactionType ≠ TransactionType.transfer := by
    rcases hkind with h' | h' <;> rw [h'] <;> simp
  rcases h with h | h <;> simp [handleSubmit, hnt, h]

/-- C7 witness: an expense submission with no category selected is
rejected. -/
theorem claim_C7_category_mandatory_witness :
    handleSubmit pfFifty [cashAsset] entryNoCat = (entryNoCat, none) :=
  claim_C7_category_mandatory pfFifty [cashAsset] entryNoCat
    (Or.inl rfl) (Or.inl rfl)

/-- C9: `handleAddAccount` transmits the opening balance as an integer of
minor units: a NaN-parsing input causes no `add_account` invocation, and
for every finite parsed value `p` (positive, zero, or negative) the
invocation carries `openingBalance = Math.round(p * 100) = ⌊p·100 + 1/2⌋`,
an integer. -/
theorem claim_C9_opening_balance_minor_units (pf : String → JSNum)
    (s : AccountsState) (p : ℚ) :
    ((pf s.openingBalance).isNaN = true → handleAddAccount pf s = none) ∧
    (optTruthy s.containerId = true → jsTrim s.name ≠ "" → s.accountType ≠ "" →
      pf s.openingBalance = JSNum.fin p →
      handleAddAccount pf s =
        some { containerId := s.containerId.getD 0,
               name := jsTrim s.name,
               accountType := s.accountType,
               openingBalance := JSNum.fin ((⌊p * 100 + 1 / 2⌋ : ℤ) : ℚ) }) := by
  constructor
  · intro h
    unfold handleAddAccount
    split
    · rfl
    · rw [if_pos h]
  · intro hc hn ht hp
    have hn' : (jsTrim s.name == "") = false := by simpa using hn
    have ht' : (s.accountType == "") = false := by simpa using ht
    simp [handleAddAccount, hc, hn', ht', hp, JSNum.isNaN, JSNum.mul,
      JSNum.round]

/-- C9 witness: a non-numeric opening balance causes no invocation, and
the negative input `"-2.5"` is accepted and transmitted as the integer
`-250` minor units. -/
theorem claim_C9_opening_balance_minor_units_witness :
    handleAddAccount pfNaN accFormNeg = none ∧
    handleAddAccount pfNegQ accFormNeg =
      some { containerId := 1, name := "Kas", accountType := "asset",
             openingBalance := JSNum.fin (-250) } := by
  constructor
  · exact (claim_C9_opening_balance_minor_units pfNaN accFormNeg 0).1 rfl
  · have h := (claim_C9_opening_balance_minor_units pfNegQ accFormNeg
      (-(5 / 2))).2 (by decide) (by decide) (by decide) rfl
    rw [h]
    have hf : (⌊(-(5 / 2) : ℚ) * 100 + 1 / 2⌋ : ℤ) = -250 := by norm_num
    rw [hf]
    decide
